import Mathlib

set_option maxRecDepth 8000

/-!
Verification of the contactr-websocket relay server (src/server.ts) against its
natural-language design. The development embeds the server's pure logic as
executable Lean definitions: JSON values and the JSON.parse / JSON.stringify
boundary, JavaScript property access with its null/undefined TypeError
behaviour, the token validation, admission, broadcast, inbound-message,
search-sync, notification-handler and shutdown code paths, and a small
transition system for the live client set maintained by the ws library.
-/

/-- JSON values as produced by JSON.parse. Numbers keep their source lexeme,
which is all the server ever needs (it never does arithmetic on payloads). -/
inductive Json where
  | null
  | bool (b : Bool)
  | num (lexeme : String)
  | str (s : String)
  | arr (elems : List Json)
  | obj (fields : List (String × Json))

/-- Escape of one character inside a JSON string literal. -/
def escapeChar (c : Char) : String :=
  if c = '"' then "\\\""
  else if c = '\\' then "\\\\"
  else if c = '\n' then "\\n"
  else if c = '\t' then "\\t"
  else if c = '\r' then "\\r"
  else String.singleton c

/-- Escape of a whole JSON string literal body. -/
def escapeString (s : String) : String :=
  String.join (s.toList.map escapeChar)

mutual

/-- Serialization of a Json value, modelling JSON.stringify on the values the
server sends (object key order is insertion order, as in JavaScript). -/
def Json.stringify : Json → String
  | .null => "null"
  | .bool b => cond b "true" "false"
  | .num l => l
  | .str s => "\"" ++ escapeString s ++ "\""
  | .arr es => "[" ++ stringifyElems es ++ "]"
  | .obj fs => "\x7b" ++ stringifyFields fs ++ "\x7d"

/-- Comma-separated serialization of array elements. -/
def stringifyElems : List Json → String
  | [] => ""
  | e :: es => cond es.isEmpty (Json.stringify e) (Json.stringify e ++ "," ++ stringifyElems es)

/-- Comma-separated serialization of object fields. -/
def stringifyFields : List (String × Json) → String
  | [] => ""
  | (k, v) :: fs =>
      cond fs.isEmpty ("\"" ++ escapeString k ++ "\":" ++ Json.stringify v)
        ("\"" ++ escapeString k ++ "\":" ++ Json.stringify v ++ "," ++ stringifyFields fs)

end

/-- The opening brace character, written via its code point. -/
def lbrace : Char := Char.ofNat 123

/-- The closing brace character, written via its code point. -/
def rbrace : Char := Char.ofNat 125

/-- Skip JSON whitespace. -/
def skipWs : List Char → List Char
  | [] => []
  | c :: cs => if c == ' ' || c == '\n' || c == '\t' || c == '\r' then skipWs cs else c :: cs

/-- Value of a hexadecimal digit. -/
def hexVal (c : Char) : Option Nat :=
  if '0' ≤ c ∧ c ≤ '9' then some (c.toNat - '0'.toNat)
  else if 'a' ≤ c ∧ c ≤ 'f' then some (c.toNat - 'a'.toNat + 10)
  else if 'A' ≤ c ∧ c ≤ 'F' then some (c.toNat - 'A'.toNat + 10)
  else none

/-- Parse the body of a JSON string literal after the opening quote. -/
def parseStringBody : List Char → Option (String × List Char)
  | [] => none
  | '"' :: cs => some ("", cs)
  | '\\' :: 'u' :: a :: b :: c :: d :: cs => do
      let ha ← hexVal a
      let hb ← hexVal b
      let hc ← hexVal c
      let hd ← hexVal d
      let (rest, cs') ← parseStringBody cs
      some (String.singleton (Char.ofNat (((ha * 16 + hb) * 16 + hc) * 16 + hd)) ++ rest, cs')
  | '\\' :: e :: cs => do
      let ec ← (match e with
        | '"' => some "\""
        | '\\' => some "\\"
        | '/' => some "/"
        | 'n' => some "\n"
        | 't' => some "\t"
        | 'r' => some "\r"
        | 'b' => some "\x08"
        | 'f' => some "\x0c"
        | _ => none)
      let (rest, cs') ← parseStringBody cs
      some (ec ++ rest, cs')
  | c :: cs =>
      if c == '\\' then none
      else do
        let (rest, cs') ← parseStringBody cs
        some (String.singleton c ++ rest, cs')

/-- Take a maximal run of decimal digits. -/
def takeDigits : List Char → (List Char × List Char)
  | [] => ([], [])
  | c :: cs =>
      if c.isDigit then
        let (ds, rest) := takeDigits cs
        (c :: ds, rest)
      else ([], c :: cs)

/-- Parse a JSON number lexeme (sign, integer part, optional fraction and
exponent), returning it verbatim. -/
def parseNumber (cs : List Char) : Option (String × List Char) :=
  let (neg, cs1) : List Char × List Char :=
    match cs with
    | '-' :: rest => (['-'], rest)
    | _ => ([], cs)
  match takeDigits cs1 with
  | ([], _) => none
  | (ds, rest) =>
    let (frac, rest2) : List Char × List Char :=
      match rest with
      | '.' :: r =>
        (match takeDigits r with
         | ([], _) => ([], rest)
         | (fs, r2) => ('.' :: fs, r2))
      | _ => ([], rest)
    let (ex, rest3) : List Char × List Char :=
      match rest2 with
      | e :: r =>
        if e == 'e' || e == 'E' then
          match r with
          | s :: r2 =>
            if s == '+' || s == '-' then
              match takeDigits r2 with
              | ([], _) => ([], rest2)
              | (es, r3) => (e :: s :: es, r3)
            else
              match takeDigits r with
              | ([], _) => ([], rest2)
              | (es, r3) => (e :: es, r3)
          | [] => ([], rest2)
        else ([], rest2)
      | [] => ([], rest2)
    some (String.mk (neg ++ ds ++ frac ++ ex), rest3)

/-- Parser modes: a single value, the tail of an array, the tail of an object. -/
inductive PMode where
  | value
  | arrTail (acc : List Json)
  | objTail (acc : List (String × Json))

/-- Fuel-indexed JSON parser; fuel strictly decreases on every recursive call,
so the definition is structural and evaluates inside the kernel. -/
def parseF : Nat → PMode → List Char → Option (Json × List Char)
  | 0, _, _ => none
  | Nat.succ fuel, PMode.value, cs =>
    match skipWs cs with
    | 'n' :: 'u' :: 'l' :: 'l' :: rest => some (.null, rest)
    | 't' :: 'r' :: 'u' :: 'e' :: rest => some (.bool true, rest)
    | 'f' :: 'a' :: 'l' :: 's' :: 'e' :: rest => some (.bool false, rest)
    | '"' :: rest => (parseStringBody rest).map fun p => (.str p.1, p.2)
    | '[' :: rest =>
      (match skipWs rest with
       | ']' :: rest2 => some (.arr [], rest2)
       | other => parseF fuel (PMode.arrTail []) other)
    | c :: rest =>
      if c = lbrace then
        match skipWs rest with
        | r :: rest2 =>
            if r = rbrace then some (.obj [], rest2)
            else parseF fuel (PMode.objTail []) (r :: rest2)
        | [] => none
      else if c == '-' || c.isDigit then
        (parseNumber (c :: rest)).map fun p => (.num p.1, p.2)
      else none
    | [] => none
  | Nat.succ fuel, PMode.arrTail acc, cs => do
    let (v, cs') ← parseF fuel PMode.value cs
    match skipWs cs' with
    | ',' :: cs'' => parseF fuel (PMode.arrTail (acc ++ [v])) cs''
    | ']' :: cs'' => some (.arr (acc ++ [v]), cs'')
    | _ => none
  | Nat.succ fuel, PMode.objTail acc, cs =>
    match skipWs cs with
    | '"' :: rest => do
      let (k, cs1) ← parseStringBody rest
      match skipWs cs1 with
      | ':' :: cs2 => do
        let (v, cs3) ← parseF fuel PMode.value cs2
        match skipWs cs3 with
        | ',' :: cs4 => parseF fuel (PMode.objTail (acc ++ [(k, v)])) cs4
        | c :: cs4 => if c = rbrace then some (.obj (acc ++ [(k, v)]), cs4) else none
        | [] => none
      | _ => none
    | _ => none

/-- Model of JavaScript JSON.parse: none models a thrown SyntaxError. -/
def JSON.parse (s : String) : Option Json :=
  match parseF (2 * s.length + 4) PMode.value s.toList with
  | some (j, rest) => if (skipWs rest).isEmpty then some j else none
  | none => none

/-- JavaScript values at a property-access site: a JSON value or undefined. -/
inductive JsVal where
  | undefined
  | val (j : Json)

/-- JavaScript property access o.k: raises a TypeError on null or undefined,
yields the field on objects (or undefined when absent), and undefined on any
other primitive. The error string models the thrown exception. -/
def jsField (o : JsVal) (k : String) : Except String JsVal :=
  match o with
  | .undefined => .error "TypeError"
  | .val .null => .error "TypeError"
  | .val (.obj fields) =>
    match fields.find? (fun p => p.1 == k) with
    | some p => .ok (.val p.2)
    | none => .ok .undefined
  | .val _ => .ok .undefined

/-- Strict equality of a JavaScript value with a string literal. -/
def JsVal.isStr (v : JsVal) (s : String) : Bool :=
  match v with
  | .val (.str t) => t == s
  | _ => false

/-- Decoded JWT claims as read by jwt.decode (JWTPayload in src/types.ts).
Absent claims are none; present-but-empty strings are kept distinct because
the server tests claims with JavaScript truthiness. -/
structure JWTPayload where
  email : Option String
  name : Option String
  preferred_username : Option String
  sid : Option String
deriving DecidableEq

/-- UserInfo from src/types.ts: the identity attached to a connection. -/
structure UserInfo where
  email : String
  name : String
  sessionId : Option String
deriving DecidableEq

/-- A bearer token as the server sees it: the raw query-parameter string and
the result of jwt.decode on it (none when the token is structurally
undecodable, matching jwt.decode returning null). -/
structure Token where
  raw : String
  decoded : Option JWTPayload
deriving DecidableEq

/-- JavaScript a || b for an optional string claim: absent and empty strings
are both falsy and fall through to the right operand. -/
def strOr (a : Option String) (b : String) : String :=
  match a with
  | some s => if s = "" then b else s
  | none => b

/-- validateToken from src/server.ts lines 125-141: reject a missing or falsy
token, reject an undecodable token or one whose email claim is falsy, and
otherwise resolve the identity with the name fallback chain
name || preferred_username || Unknown and an opaque sid passthrough. -/
def validateToken (token : Option Token) : Except String UserInfo :=
  match token with
  | none => .error "No token provided"
  | some t =>
    if t.raw = "" then .error "No token provided"
    else
      match t.decoded with
      | none => .error "Invalid token payload"
      | some d =>
        match d.email with
        | none => .error "Invalid token payload"
        | some e =>
          if e = "" then .error "Invalid token payload"
          else .ok ⟨e, strOr d.name (strOr d.preferred_username "Unknown"), d.sid⟩

/-- One entry of wss.clients. readyState follows the WebSocket numbering
(0 CONNECTING, 1 OPEN, 2 CLOSING, 3 CLOSED); admitted records whether the
connection handler authenticated it; sendRaises is the environment's
behaviour of the transport send call for this socket (true means invoking
send raises). -/
structure Client where
  id : Nat
  readyState : Nat
  admitted : Bool
  sendRaises : Bool
deriving DecidableEq

/-- Notification from src/types.ts: the decoded upstream event. -/
structure Notification where
  channel : String
  payload : Json
  timestamp : String

/-- The JSON object the server serializes when broadcasting a notification. -/
def notifJson (n : Notification) : Json :=
  .obj [("channel", .str n.channel), ("payload", n.payload), ("timestamp", .str n.timestamp)]

/-- Observable effects on sockets during a broadcast. -/
inductive WsAction where
  | send (id : Nat) (frame : String)
  | close (id : Nat) (code : Nat) (reason : String)
deriving DecidableEq

/-- The wss.clients.forEach body of broadcastNotification: send the serialized
notification to every OPEN client, counting sends; an exception from send
escapes the forEach and aborts the loop, modelled by a none count. -/
def broadcastGo (frame : String) : List Client → List WsAction → Nat → List WsAction × Option Nat
  | [], acc, cnt => (acc, some cnt)
  | c :: rest, acc, cnt =>
    if c.readyState = 1 then
      if c.sendRaises then (acc, none)
      else broadcastGo frame rest (acc ++ [.send c.id frame]) (cnt + 1)
    else broadcastGo frame rest acc cnt

/-- broadcastNotification from src/server.ts lines 146-157. -/
def broadcastNotification (clients : List Client) (notification : Notification) :
    List WsAction × Option Nat :=
  broadcastGo (Json.stringify (notifJson notification)) clients [] 0

/-- The welcome frame sent on successful admission (src/server.ts 220-225). -/
def welcomeJson (email now : String) : Json :=
  .obj [("type", .str "connection"),
        ("message", .str "Connected to realtime notifications"),
        ("user", .str email),
        ("timestamp", .str now)]

/-- The reply sent from the catch block of handleMessage (src/server.ts 269-272). -/
def invalidFormatJson : Json :=
  .obj [("type", .str "error"), ("message", .str "Invalid message format")]

/-- The rejection reply for lock and unlock actions (src/server.ts 249-253). -/
def lockRejectJson : Json :=
  .obj [("type", .str "error"),
        ("message", .str "Please use PostgREST RPC endpoints for lock/unlock operations"),
        ("hint", .str "POST /rpc/lock_contact or /rpc/unlock_contact")]

/-- The pong reply (src/server.ts 259-262). -/
def pongJson (now : String) : Json :=
  .obj [("type", .str "pong"), ("timestamp", .str now)]

/-- Observable effects on the one socket during an admission attempt. -/
inductive AdmAction where
  | send (frame : String)
  | close (code : Nat) (reason : String)
deriving DecidableEq

/-- handleWebSocketConnection from src/server.ts lines 202-234: validate the
token extracted from the request URL, send one welcome frame and return true
on success, or close with 1008 and the failure reason and return false. The
function itself performs no insertion into wss.clients (the ws library owns
that set). -/
def handleWebSocketConnection (token : Option Token) (now : String) :
    List AdmAction × Bool :=
  match validateToken token with
  | .ok user => ([.send (Json.stringify (welcomeJson user.email now))], true)
  | .error msg => ([.close 1008 msg], false)

/-- handleMessage from src/server.ts lines 239-275, as the list of frames sent
to the sender plus the value produced by the try block; an .error result
models the rethrow from the catch block after the single error reply. The
lock/unlock test runs before the ping test, exactly as in the source. -/
def handleMessage (raw now : String) : List String × Except String (Option Json) :=
  match JSON.parse raw with
  | none => ([Json.stringify invalidFormatJson], Except.error "SyntaxError")
  | some data =>
    match jsField (.val data) "action" with
    | .error e => ([Json.stringify invalidFormatJson], Except.error e)
    | .ok action =>
      if action.isStr "lock" || action.isStr "unlock" then
        ([Json.stringify lockRejectJson], Except.ok none)
      else
        match jsField (.val data) "type" with
        | .error e => ([Json.stringify invalidFormatJson], Except.error e)
        | .ok ty =>
          if ty.isStr "ping" then ([Json.stringify (pongJson now)], Except.ok (some data))
          else ([], Except.ok (some data))

/-- Calls issued against the MeiliSearch contacts index. -/
inductive MeiliOp where
  | addDocuments (doc : List (String × JsVal))
  | deleteDocument (docId : JsVal)

/-- syncToMeili from src/server.ts lines 33-69, returning the index calls it
performs. The whole body sits in a try/catch that absorbs every failure
(including the TypeError from reading data.id in the opening log statement
when data is null or undefined), so the function never raises and returns no
operation in every failure or unknown-operation case. The switch compares
operation with the uppercase literals INSERT, UPDATE, DELETE by strict
equality. -/
def syncToMeili (operation data : JsVal) : List MeiliOp :=
  match (do
    let _ ← jsField data "id"
    if operation.isStr "INSERT" || operation.isStr "UPDATE" then do
      let i ← jsField data "id"
      let gn ← jsField data "given_name"
      let sn ← jsField data "sur_name"
      let em ← jsField data "email"
      let ph ← jsField data "phone"
      let mo ← jsField data "mobile"
      let sa ← jsField data "salutation"
      let ge ← jsField data "gender"
      let bd ← jsField data "birth_date"
      let cr ← jsField data "created"
      let md ← jsField data "modified"
      pure [MeiliOp.addDocuments
              [("id", i), ("given_name", gn), ("sur_name", sn), ("email", em),
               ("phone", ph), ("mobile", mo), ("salutation", sa), ("gender", ge),
               ("birth_date", bd), ("created", cr), ("modified", md)]]
    else if operation.isStr "DELETE" then do
      let i ← jsField data "id"
      pure [MeiliOp.deleteDocument i]
    else
      pure ([] : List MeiliOp)
    : Except String (List MeiliOp)) with
  | .ok ops => ops
  | .error _ => []

/-- Result of one run of the pg notification callback. -/
structure NotifOut where
  notification : Notification
  meiliOps : List MeiliOp
  syncCalled : Bool
  actions : List WsAction
  count : Nat

/-- The pgClient notification handler from src/server.ts lines 162-192: build
the Notification (JSON.parse of a truthy payload, null otherwise — a parse
failure raises out of the callback, there is no surrounding try/catch); on the
contact_changes channel read payload.operation, payload.data and
payload.action (each a JavaScript property access that raises on a null
payload) and dispatch syncToMeili fire-and-forget; finally broadcast. An
.error result models an exception escaping the callback. -/
def onNotification (clients : List Client) (channel : String)
    (rawPayload : Option String) (now : String) : Except String NotifOut := do
  let payload : Json ←
    match rawPayload with
    | some s =>
      if s = "" then pure Json.null
      else
        match JSON.parse s with
        | some j => pure j
        | none => Except.error "SyntaxError"
    | none => pure Json.null
  let notification : Notification := ⟨channel, payload, now⟩
  let meili : List MeiliOp ←
    if channel = "contact_changes" then do
      let _operation ← jsField (.val payload) "operation"
      let data ← jsField (.val payload) "data"
      let action ← jsField (.val payload) "action"
      pure (syncToMeili action data)
    else
      pure []
  match broadcastNotification clients notification with
  | (acts, some n) => pure ⟨notification, meili, channel == "contact_changes", acts, n⟩
  | (_, none) => Except.error "send raised"

/-- Effects of the shutdown function, in order. -/
inductive SAction where
  | close (id : Nat) (code : Nat) (reason : String)
  | pgEnd
  | serverClosed
  | resolved
deriving DecidableEq

/-- shutdown from src/server.ts lines 313-328, as the ordered trace of its
effects: close every client in wss.clients with code 1001 and reason
Server shutting down, await pgClient.end, then resolve the returned promise
from the server.close callback. -/
def shutdown (clients : List Client) : List SAction :=
  (clients.map fun c => SAction.close c.id 1001 "Server shutting down") ++
    [SAction.pgEnd, SAction.serverClosed, SAction.resolved]

/-- The client-set entry produced by one completed WebSocket upgrade. The ws
library inserts the socket into wss.clients when the handshake completes and
only removes it when the close handshake completes; the connection handler
then runs handleWebSocketConnection, and on admission failure ws.close moves
the socket to readyState 2 (CLOSING) while it is still a member of
wss.clients. -/
def mkConn (token : Option Token) (now : String) (id : Nat) (sr : Bool) : Client :=
  if (handleWebSocketConnection token now).2 then ⟨id, 1, true, sr⟩
  else ⟨id, 2, false, sr⟩

/-- Transitions of the live client set wss.clients: a completed upgrade plus
connection-handler run; a close handshake starting on an open socket; a close
handshake completing, at which point the ws library removes the socket. -/
inductive SrvStep : List Client → List Client → Prop where
  | connect (cs : List Client) (token : Option Token) (now : String) (id : Nat) (sr : Bool) :
      SrvStep cs (cs ++ [mkConn token now id sr])
  | beginClose (l1 l2 : List Client) (c : Client) (h : c.readyState = 1) :
      SrvStep (l1 ++ c :: l2) (l1 ++ ⟨c.id, 2, c.admitted, c.sendRaises⟩ :: l2)
  | closeDone (l1 l2 : List Client) (c : Client) (h : c.readyState = 2) :
      SrvStep (l1 ++ c :: l2) (l1 ++ l2)

/-- States of wss.clients reachable from the empty registry. -/
def ReachableSt (s : List Client) : Prop :=
  Relation.ReflTransGen SrvStep [] s

/-- Three mock clients mirroring the repository's broadcast unit test: two
OPEN sockets and one CONNECTING socket, none of whose sends raises. -/
def utClients : List Client := [⟨0, 1, true, false⟩, ⟨1, 1, true, false⟩, ⟨2, 0, false, false⟩]

/-- A sample decoded notification used for concrete broadcast runs. -/
def utNotif : Notification :=
  ⟨"contact_changes", Json.obj [("id", Json.str "123"), ("action", Json.str "update")], "t0"⟩

/-- Two OPEN clients of which the first one's transport send raises. -/
def cxClients : List Client := [⟨0, 1, true, true⟩, ⟨1, 1, true, false⟩]

/-- The raw change-feed payload of the two-subscriber scenario. -/
def c3payload : String :=
  "\x7b\"id\":\"123\",\"action\":\"update\",\"data\":\x7b\"name\":\"X\"\x7d\x7d"

/-- The parsed form of the scenario payload. -/
def c3json : Json :=
  Json.obj [("id", Json.str "123"), ("action", Json.str "update"),
            ("data", Json.obj [("name", Json.str "X")])]

/-- Two admitted, open subscribers. -/
def c3clients : List Client := [⟨1, 1, true, false⟩, ⟨2, 1, true, false⟩]

/-- The Notification the handler builds from the scenario payload. -/
def c3notif : Notification := ⟨"contact_changes", c3json, "t0"⟩

/-- The serialized broadcast frame of the scenario. -/
def c3frame : String := Json.stringify (notifJson c3notif)

/-- The wss.clients entry left behind by an admission attempt with no token:
the handler closed it with 1008, so it sits in the set unadmitted and in
CLOSING state until the close handshake completes. -/
def badConn : Client := mkConn none "t0" 0 false

/-- The registry state right after a token-less connection attempt. -/
def regS1 : List Client := [badConn]

/-- Three open connections, as in the shutdown scenario of the design. -/
def sh3 : List Client := [⟨0, 1, true, false⟩, ⟨1, 1, true, false⟩, ⟨2, 1, true, false⟩]

/-- An inbound frame that is simultaneously a ping and a lock action. -/
def pingLockRaw : String := "\x7b\"type\":\"ping\",\"action\":\"lock\"\x7d"

/-- A plain ping frame. -/
def pingRaw : String := "\x7b\"type\":\"ping\"\x7d"

/-- Claims with an email, an empty name claim and a preferred username. -/
def p8 : JWTPayload := ⟨some "a@b.c", some "", some "pu", none⟩

/-- A token decoding to p8. -/
def tok8 : Token := ⟨"tok", some p8⟩

/-- A token with the claims used by the repository's own unit test. -/
def tokW : Token := ⟨"tok", some ⟨some "a@b.c", some "Test User", none, some "session-123"⟩⟩

example : JSON.parse "null" = some Json.null := by rfl

example : JSON.parse "not-json" = none := by rfl

example : JSON.parse c3payload = some c3json := by rfl

/-- Processing a prefix of clients none of whose open members raises on send
appends one send per open client to the accumulator and counts them, then
continues with the remaining clients. -/
theorem broadcastGo_append (frame : String) (pre : List Client) :
    ∀ (rest : List Client) (acc : List WsAction) (cnt : Nat),
      (∀ c ∈ pre, c.readyState = 1 → c.sendRaises = false) →
      broadcastGo frame (pre ++ rest) acc cnt =
        broadcastGo frame rest
          (acc ++ (pre.filter fun c => c.readyState == 1).map fun c => WsAction.send c.id frame)
          (cnt + (pre.filter fun c => c.readyState == 1).length) := by
  induction pre with
  | nil => intro rest acc cnt _; simp
  | cons c cs ih =>
    intro rest acc cnt h
    by_cases hc : c.readyState = 1
    · have hr : c.sendRaises = false := h c (by simp) hc
      have step : broadcastGo frame ((c :: cs) ++ rest) acc cnt
          = broadcastGo frame (cs ++ rest) (acc ++ [WsAction.send c.id frame]) (cnt + 1) := by
        simp [broadcastGo, hc, hr]
      rw [step, ih rest _ _ (fun x hx h1 => h x (by simp [hx]) h1)]
      congr 1
      · simp [List.filter_cons, hc, List.append_assoc]
      · simp [List.filter_cons, hc]
        omega
    · have step : broadcastGo frame ((c :: cs) ++ rest) acc cnt
          = broadcastGo frame (cs ++ rest) acc cnt := by
        simp [broadcastGo, hc]
      rw [step, ih rest _ _ (fun x hx h1 => h x (by simp [hx]) h1)]
      congr 1
      · simp [List.filter_cons, hc]
      · simp [List.filter_cons, hc]

/-- A broadcast over fault-free clients sends to exactly the open ones, in
registry order, and completes with their count. -/
theorem broadcastGo_total (frame : String) (cs : List Client)
    (h : ∀ c ∈ cs, c.readyState = 1 → c.sendRaises = false) :
    broadcastGo frame cs [] 0 =
      ((cs.filter fun c => c.readyState == 1).map fun c => WsAction.send c.id frame,
       some (cs.filter fun c => c.readyState == 1).length) := by
  have h2 := broadcastGo_append frame cs [] [] 0 h
  simpa [broadcastGo] using h2

/-- Claim C6: broadcastNotification returns exactly the number of registry
connections whose readyState is OPEN at call time, each counted connection is
sent the identical serialized frame, and a connection whose transport is not
open is sent nothing and is excluded from the count. The transport sends of
open clients do not raise (hypothesis h1), which is the behaviour of the ws
send call on an OPEN socket. -/
theorem broadcastNotification_exact (clients : List Client) (n : Notification)
    (h1 : ∀ c ∈ clients, c.readyState = 1 → c.sendRaises = false)
    (h2 : (clients.map Client.id).Nodup) :
    broadcastNotification clients n =
      ((clients.filter fun c => c.readyState == 1).map
         (fun c => WsAction.send c.id (Json.stringify (notifJson n))),
       some (clients.filter fun c => c.readyState == 1).length) ∧
    (∀ c ∈ clients, c.readyState ≠ 1 →
       ∀ fr, WsAction.send c.id fr ∉ (broadcastNotification clients n).1) := by
  have hmain : broadcastNotification clients n =
      ((clients.filter fun c => c.readyState == 1).map
         (fun c => WsAction.send c.id (Json.stringify (notifJson n))),
       some (clients.filter fun c => c.readyState == 1).length) :=
    broadcastGo_total _ clients h1
  refine ⟨hmain, ?_⟩
  intro c hc hns fr hmem
  rw [hmain] at hmem
  simp only [List.mem_map] at hmem
  obtain ⟨c', hc', heq⟩ := hmem
  have hc'mem : c' ∈ clients := (List.mem_filter.mp hc').1
  have hopen : (c'.readyState == 1) = true := (List.mem_filter.mp hc').2
  have hido : c'.id = c.id := by injection heq
  have hcc : c' = c := List.inj_on_of_nodup_map h2 hc'mem hc hido
  exact hns (by rw [← hcc]; simpa using hopen)

/-- Witness for C6 at the repository's own unit-test configuration: two OPEN
clients and one CONNECTING client give count two, and only the open clients
are sent the frame. -/
theorem broadcastNotification_exact_witness :
    broadcastNotification utClients utNotif =
      ([WsAction.send 0 (Json.stringify (notifJson utNotif)),
        WsAction.send 1 (Json.stringify (notifJson utNotif))], some 2) :=
  (broadcastNotification_exact utClients utNotif (by decide) (by decide)).1

/-- Claim C2, counterexample: with two OPEN clients of which the first send
raises, broadcastNotification neither delivers to the remaining open client
nor returns a count — the raised send is not caught and aborts the forEach. -/
theorem broadcast_send_raise_counterexample :
    broadcastNotification cxClients utNotif = ([], none) := by rfl

/-- Claim C2, amended: broadcastNotification contains no catch around send.
If the send to an open client raises, the exception propagates out of the
broadcast: the clients after it are not attempted and no count is returned;
the broadcast itself never emits a close for any connection (every emitted
action is a send). -/
theorem broadcast_send_raise_aborts (pre post : List Client) (c : Client) (n : Notification)
    (hpre : ∀ p ∈ pre, p.readyState = 1 → p.sendRaises = false)
    (hc1 : c.readyState = 1) (hc2 : c.sendRaises = true) :
    broadcastNotification (pre ++ c :: post) n =
      ((pre.filter fun x => x.readyState == 1).map
         (fun x => WsAction.send x.id (Json.stringify (notifJson n))), none) ∧
    (∀ a ∈ (broadcastNotification (pre ++ c :: post) n).1, ∃ i f, a = WsAction.send i f) := by
  have hmain : broadcastNotification (pre ++ c :: post) n =
      ((pre.filter fun x => x.readyState == 1).map
         (fun x => WsAction.send x.id (Json.stringify (notifJson n))), none) := by
    unfold broadcastNotification
    rw [broadcastGo_append _ pre _ _ _ hpre]
    simp [broadcastGo, hc1, hc2]
  refine ⟨hmain, ?_⟩
  intro a ha
  rw [hmain] at ha
  simp only [List.mem_map] at ha
  obtain ⟨x, _, hx⟩ := ha
  exact ⟨x.id, _, hx.symm⟩

/-- Witness for the amended C2: a healthy open client before the raising one
is still served, the one after it is not, and no count is produced. -/
theorem broadcast_send_raise_aborts_witness :
    broadcastNotification ([⟨3, 1, true, false⟩] ++ ⟨4, 1, true, true⟩ :: [⟨5, 1, true, false⟩]) utNotif =
      ([WsAction.send 3 (Json.stringify (notifJson utNotif))], none) :=
  (broadcast_send_raise_aborts [⟨3, 1, true, false⟩] [⟨5, 1, true, false⟩]
    ⟨4, 1, true, true⟩ utNotif (by decide) rfl rfl).1

/-- Claim C4, counterexample: after an admission attempt with no token, the
rejected connection is still a member of wss.clients — reachable state regS1
contains badConn, which never completed admission (it sits in CLOSING state
until its close handshake completes). This refutes both the stated
equivalence and the statement that a connection whose token fails extraction
is never a registry member. -/
theorem registry_nonadmitted_member_counterexample :
    ReachableSt regS1 ∧ badConn ∈ regS1 ∧ badConn.admitted = false ∧ badConn.readyState = 2 :=
  ⟨Relation.ReflTransGen.single (SrvStep.connect [] none "t0" 0 false),
   by simp [regS1], by decide, by decide⟩

/-- Claim C4, amended: at every reachable state of wss.clients, every member
whose transport is OPEN has completed admission, and every member that has
not completed admission is in CLOSING state — membership itself is not
equivalent to being open and admitted, because a connection (admitted or
not) remains a member from handshake completion until its close handshake
completes. -/
theorem registry_open_members_admitted (s : List Client) (h : ReachableSt s) :
    ∀ c ∈ s, (c.readyState = 1 → c.admitted = true) ∧ (c.admitted = false → c.readyState = 2) := by
  unfold ReachableSt at h
  induction h with
  | refl => intro c hc; simp at hc
  | tail hab hbc ih =>
    cases hbc with
    | connect cs token now id sr =>
      intro x hx
      rcases List.mem_append.mp hx with h1 | h2
      · exact ih x h1
      · have hx2 : x = mkConn token now id sr := by simpa using h2
        subst hx2
        unfold mkConn
        by_cases hh : (handleWebSocketConnection token now).2 <;> simp [hh]
    | beginClose l1 l2 c hc =>
      intro x hx
      rcases List.mem_append.mp hx with h1 | h2
      · exact ih x (List.mem_append.mpr (Or.inl h1))
      · rcases List.mem_cons.mp h2 with h3 | h4
        · subst h3
          refine ⟨fun h15 => ?_, fun _ => rfl⟩
          simp at h15
        · exact ih x (List.mem_append.mpr (Or.inr (List.mem_cons.mpr (Or.inr h4))))
    | closeDone l1 l2 c hc =>
      intro x hx
      rcases List.mem_append.mp hx with h1 | h2
      · exact ih x (List.mem_append.mpr (Or.inl h1))
      · exact ih x (List.mem_append.mpr (Or.inr (List.mem_cons.mpr (Or.inr h2))))

/-- Witness for the amended C4: the invariant applied at the reachable state
regS1 shows the unadmitted member is in CLOSING state. -/
theorem registry_open_members_admitted_witness : badConn.readyState = 2 :=
  (registry_open_members_admitted regS1
    (Relation.ReflTransGen.single (SrvStep.connect [] none "t0" 0 false))
    badConn (by simp [regS1])).2 rfl

/-- Every validateToken failure carries one of the two fixed reason strings. -/
theorem validateToken_error_msgs (token : Option Token) (msg : String)
    (h : validateToken token = Except.error msg) :
    msg = "No token provided" ∨ msg = "Invalid token payload" := by
  rcases token with _ | t
  · simp [validateToken] at h
    exact Or.inl h.symm
  · unfold validateToken at h
    by_cases hr : t.raw = ""
    · simp [hr] at h
      exact Or.inl h.symm
    · rcases hd : t.decoded with _ | d
      · simp [hr, hd] at h
        exact Or.inr h.symm
      · rcases he : d.email with _ | e
        · simp [hr, hd, he] at h
          exact Or.inr h.symm
        · by_cases he2 : e = ""
          · simp [hr, hd, he, he2] at h
            exact Or.inr h.symm
          · simp [hr, hd, he, he2] at h

/-- Claim C5: when token extraction fails, admission issues exactly one close
carrying status 1008 and the failure reason (one of the two fixed strings),
sends no welcome frame, and returns false — the function performs no
registry insertion on any path (the ws library owns wss.clients); moreover
every admission attempt issues exactly one welcome send or exactly one
close, never both. -/
theorem admission_failure_closes_1008 (token : Option Token) (now msg : String)
    (h : validateToken token = Except.error msg) :
    handleWebSocketConnection token now = ([AdmAction.close 1008 msg], false) ∧
    (msg = "No token provided" ∨ msg = "Invalid token payload") ∧
    (∀ (tok2 : Option Token) (now2 : String),
       (∃ fr, handleWebSocketConnection tok2 now2 = ([AdmAction.send fr], true)) ∨
       (∃ code r, handleWebSocketConnection tok2 now2 = ([AdmAction.close code r], false))) := by
  refine ⟨?_, validateToken_error_msgs token msg h, ?_⟩
  · unfold handleWebSocketConnection
    rw [h]
  · intro tok2 now2
    rcases hv : validateToken tok2 with msg2 | user
    · exact Or.inr ⟨1008, msg2, by simp [handleWebSocketConnection, hv]⟩
    · exact Or.inl ⟨Json.stringify (welcomeJson user.email now2), by simp [handleWebSocketConnection, hv]⟩

/-- Witness for C5 at the missing-token input. -/
theorem admission_failure_closes_1008_witness :
    handleWebSocketConnection none "t0" = ([AdmAction.close 1008 "No token provided"], false) :=
  (admission_failure_closes_1008 none "t0" "No token provided" rfl).1

/-- Claim C8, counterexample: a token whose name claim is present but equal
to the empty string resolves to the preferred username, not to the name
claim — JavaScript truthiness makes the empty name claim fall through, so
the resolved name does not equal the explicit name claim although that claim
is present. -/
theorem validateToken_empty_name_counterexample :
    p8.name = some "" ∧ validateToken (some tok8) = Except.ok ⟨"a@b.c", "pu", none⟩ :=
  ⟨rfl, rfl⟩

/-- Claim C8, amended: for every token that decodes to a payload with a
non-empty email claim, validateToken returns the identity whose name is the
name claim when present and non-empty, else the preferred username claim
when present and non-empty, else the placeholder Unknown, and whose
sessionId is exactly the sid claim. -/
theorem validateToken_name_resolution (t : Token) (p : JWTPayload) (e : String)
    (hd : t.decoded = some p) (hraw : t.raw ≠ "") (he : p.email = some e) (hene : e ≠ "") :
    (∀ nm, p.name = some nm → nm ≠ "" →
        validateToken (some t) = Except.ok ⟨e, nm, p.sid⟩) ∧
    ((p.name = none ∨ p.name = some "") → ∀ v, p.preferred_username = some v → v ≠ "" →
        validateToken (some t) = Except.ok ⟨e, v, p.sid⟩) ∧
    ((p.name = none ∨ p.name = some "") →
     (p.preferred_username = none ∨ p.preferred_username = some "") →
        validateToken (some t) = Except.ok ⟨e, "Unknown", p.sid⟩) := by
  refine ⟨?_, ?_, ?_⟩
  · intro nm h1 h2
    simp [validateToken, hraw, hd, he, hene, strOr, h1, h2]
  · rintro (h1 | h1) v h2 h3 <;>
      simp [validateToken, hraw, hd, he, hene, strOr, h1, h2, h3]
  · rintro (h1 | h1) (h2 | h2) <;>
      simp [validateToken, hraw, hd, he, hene, strOr, h1, h2]

/-- Witness for the amended C8 at the repository's unit-test claims. -/
theorem validateToken_name_resolution_witness :
    validateToken (some tokW) = Except.ok ⟨"a@b.c", "Test User", some "session-123"⟩ :=
  (validateToken_name_resolution tokW ⟨some "a@b.c", some "Test User", none, some "session-123"⟩
    "a@b.c" rfl (by decide) rfl (by decide)).1 "Test User" rfl (by decide)

/-- Claim C9: an inbound raw message that is not well-formed JSON produces
exactly one error reply (the serialized Invalid message format frame) to the
sending connection, and the failure then propagates to the caller of
handleMessage. -/
theorem handleMessage_malformed_reply (raw now : String) (hp : JSON.parse raw = none) :
    handleMessage raw now = ([Json.stringify invalidFormatJson], Except.error "SyntaxError") := by
  unfold handleMessage
  rw [hp]

/-- Witness for C9 at the repository's own malformed test input. -/
theorem handleMessage_malformed_reply_witness :
    handleMessage "invalid json" "t0" =
      ([Json.stringify invalidFormatJson], Except.error "SyntaxError") :=
  handleMessage_malformed_reply "invalid json" "t0" rfl

/-- Claim C10, counterexample: the well-formed inbound frame carrying both
type ping and action lock is answered with the single lock rejection reply,
not with a pong — the lock/unlock test runs before the ping test. -/
theorem handleMessage_ping_lock_counterexample :
    handleMessage pingLockRaw "t0" = ([Json.stringify lockRejectJson], Except.ok none) := by rfl

/-- Claim C10, amended: a well-formed ping whose action is not lock or unlock
yields exactly one pong reply carrying the current timestamp; a lock or
unlock action yields exactly one rejection reply, whose hint field is the
configured endpoint hint, and handleMessage performs no other effect (it
holds and mutates no relay state). -/
theorem handleMessage_ping_pong_and_lock_reject (raw now : String) (j : Json) (a ty : JsVal)
    (hp : JSON.parse raw = some j)
    (ha : jsField (.val j) "action" = Except.ok a)
    (ht : jsField (.val j) "type" = Except.ok ty) :
    ((a.isStr "lock" || a.isStr "unlock") = true →
       handleMessage raw now = ([Json.stringify lockRejectJson], Except.ok none)) ∧
    ((a.isStr "lock" || a.isStr "unlock") = false → ty.isStr "ping" = true →
       handleMessage raw now = ([Json.stringify (pongJson now)], Except.ok (some j))) ∧
    jsField (.val lockRejectJson) "hint" =
      Except.ok (.val (.str "POST /rpc/lock_contact or /rpc/unlock_contact")) := by
  refine ⟨?_, ?_, rfl⟩
  · intro hl
    simp [handleMessage, hp, ha, hl]
  · intro hl hping
    simp [handleMessage, hp, ha, ht, hl, hping]

/-- Witness for the amended C10: a plain ping is answered with one pong
carrying the timestamp. -/
theorem handleMessage_ping_pong_witness :
    handleMessage pingRaw "t0" =
      ([Json.stringify (pongJson "t0")], Except.ok (some (Json.obj [("type", Json.str "ping")]))) :=
  ((handleMessage_ping_pong_and_lock_reject pingRaw "t0"
      (Json.obj [("type", Json.str "ping")]) JsVal.undefined (.val (.str "ping"))
      rfl rfl rfl).2.1) rfl rfl

/-- Claim C1, counterexample: a non-empty upstream payload that is not
parseable JSON makes the notification callback raise — JSON.parse is not
wrapped in any try/catch there — so the error is neither caught nor logged
by the handler and nothing is broadcast; the exception escapes the
subscription callback. -/
theorem notification_parse_counterexample :
    onNotification [⟨0, 1, true, false⟩] "contact_locks" (some "not-json") "t0"
      = Except.error "SyntaxError" := by rfl

/-- Claim C1, amended: for every notification whose raw payload is non-empty
and not parseable JSON, the notification handler raises (the parse error
propagates out of the callback) and the notification is neither broadcast
nor mirrored; only a falsy (absent or empty) payload is replaced by null
without parsing. -/
theorem notification_malformed_raises (clients : List Client) (channel s now : String)
    (hs : s ≠ "") (hp : JSON.parse s = none) :
    onNotification clients channel (some s) now = Except.error "SyntaxError" := by
  unfold onNotification
  simp only [hs, hp]
  rfl

/-- Witness for the amended C1. -/
theorem notification_malformed_raises_witness :
    onNotification [] "contact_locks" (some "oops") "t0" = Except.error "SyntaxError" :=
  notification_malformed_raises [] "contact_locks" "oops" "t0" (by decide) rfl

/-- Claim C3, counterexample: on the two-subscriber scenario with payload
id 123, action update, data with name X, the Search Mirror performs zero
index operations: the lowercase action update matches none of the switch
cases INSERT, UPDATE, DELETE, so no upsert keyed on id 123 happens. -/
theorem scenario_update_no_upsert_counterexample :
    (onNotification c3clients "contact_changes" (some c3payload) "t0").map NotifOut.meiliOps
      = Except.ok [] := by rfl

/-- Claim C3, amended: in the two-subscriber scenario both connections
receive the identical frame whose channel is contact_changes and whose
payload is deep-equal to the notification payload; the Search Mirror is
dispatched exactly once, but it performs no index operation, because the
payload's action update is not a recognized operation of syncToMeili (and
the record it receives is payload.data, which carries no id at all). -/
theorem scenario_update_broadcast_eval :
    onNotification c3clients "contact_changes" (some c3payload) "t0" =
      Except.ok ⟨c3notif, [], true, [WsAction.send 1 c3frame, WsAction.send 2 c3frame], 2⟩ := by rfl

/-- Claim C7, counterexample: shutdown closes every member with reason
Server shutting down; no member receives a close frame with reason
going away. -/
theorem shutdown_reason_counterexample :
    (shutdown sh3).contains (SAction.close 0 1001 "going away") = false ∧
    (shutdown sh3).contains (SAction.close 0 1001 "Server shutting down") = true := by decide

/-- Claim C7, amended: shutdown sends every registry member exactly one close
frame with status 1001 and reason Server shutting down, closes the upstream
subscription (pgClient.end) and releases the listening socket (server.close),
and resolves only after all of these: the resolution event is the last
element of its effect trace and every other effect precedes it. -/
theorem shutdown_trace_properties (clients : List Client) :
    (∀ c ∈ clients, SAction.close c.id 1001 "Server shutting down" ∈ shutdown clients) ∧
    SAction.pgEnd ∈ shutdown clients ∧
    SAction.serverClosed ∈ shutdown clients ∧
    (∃ pre, shutdown clients = pre ++ [SAction.resolved] ∧
       (∀ c ∈ clients, SAction.close c.id 1001 "Server shutting down" ∈ pre) ∧
       SAction.pgEnd ∈ pre ∧ SAction.serverClosed ∈ pre ∧
       SAction.resolved ∉ pre) := by
  refine ⟨?_, ?_, ?_,
    ⟨(clients.map fun c => SAction.close c.id 1001 "Server shutting down") ++
       [SAction.pgEnd, SAction.serverClosed], ?_, ?_, ?_, ?_, ?_⟩⟩
  · intro c hc
    exact List.mem_append_left _ (List.mem_map_of_mem _ hc)
  · exact List.mem_append_right _ (by simp)
  · exact List.mem_append_right _ (by simp)
  · unfold shutdown
    simp
  · intro c hc
    exact List.mem_append_left _ (List.mem_map_of_mem _ hc)
  · simp
  · simp
  · simp [List.mem_append, List.mem_map]

/-- Witness for the amended C7 at the three-connection scenario. -/
theorem shutdown_trace_properties_witness :
    SAction.close 2 1001 "Server shutting down" ∈ shutdown sh3 :=
  (shutdown_trace_properties sh3).1 ⟨2, 1, true, false⟩ (by decide)
